import Mathlib

/-
Verification of the GamePlay platform-abstraction layer (gameplay/src/Platform.h).

The repository ships Platform.h as a pure declaration/contract file: the
method bodies live in per-OS implementation files that are not part of the
repository snapshot.  Every operation below is therefore modelled from the
specification's component design (spec.md sections 3-7), with the names kept
from Platform.h where Lean allows it.  State is passed explicitly: each
C++ static method taking the hidden process-wide state becomes a Lean
function taking and returning that state.
-/

namespace GamePlay

/-- The six recognized gesture kinds (Gesture::GestureEvent). -/
inductive GestureKind
  | swipe
  | pinch
  | tap
  | longTap
  | drag
  | drop
  deriving DecidableEq, Repr

/-- Touch event kinds (Touch::TouchEvent). -/
inductive TouchEventKind
  | press
  | release
  | move
  deriving DecidableEq, Repr

/-- Key event kinds (Keyboard::KeyEvent). -/
inductive KeyEventKind
  | press
  | release
  | char
  deriving DecidableEq, Repr

/-- Mouse event kinds (Mouse::MouseEvent). -/
inductive MouseEventKind
  | pressLeftButton
  | releaseLeftButton
  | pressMiddleButton
  | releaseMiddleButton
  | pressRightButton
  | releaseRightButton
  | move
  | wheel
  deriving DecidableEq, Repr

/-- Modelled from the spec: the InputEvent tagged union of section 3 (the
canonical event representation dispatched to the Application); the C++
payloads are spread over the per-device `*EventInternal` entry points of
Platform.h whose bodies are not in the repository snapshot.  Floating-point
payloads (pinch scale, long-tap duration) are embedded as rationals. -/
inductive InputEvent
  | touch (evt : TouchEventKind) (x y : Int) (contactIndex : Nat) (actuallyMouse : Bool)
  | key (evt : KeyEventKind) (keyCode : Int)
  | mouse (evt : MouseEventKind) (x y : Int) (wheelDelta : Int)
  | gestureSwipe (x y direction : Int)
  | gesturePinch (x y : Int) (scale : ℚ)
  | gestureTap (x y : Int)
  | gestureLongTap (x y : Int) (duration : ℚ)
  | gestureDrag (x y : Int)
  | gestureDrop (x y : Int)
  | resize (width height : Nat)
  deriving DecidableEq, Repr

/-- Modelled from the spec: the GestureRegistrationSet of section 3, a small
fixed bitset keyed by gesture kind (design note: an enum-indexed boolean
array); the state behind registerGesture/unregisterGesture/isGestureRegistered
whose bodies are not in the repository snapshot. -/
structure GestureRegistrationSet where
  swipe : Bool
  pinch : Bool
  tap : Bool
  longTap : Bool
  drag : Bool
  drop : Bool
  deriving DecidableEq, Repr

/-- Modelled from the spec: initial state is Unregistered for all kinds
(section 4.5). -/
def GestureRegistrationSet.initial : GestureRegistrationSet :=
  ⟨false, false, false, false, false, false⟩

/-- Read the registration flag of one gesture kind. -/
def GestureRegistrationSet.get (s : GestureRegistrationSet) : GestureKind → Bool
  | .swipe => s.swipe
  | .pinch => s.pinch
  | .tap => s.tap
  | .longTap => s.longTap
  | .drag => s.drag
  | .drop => s.drop

/-- Write the registration flag of one gesture kind. -/
def GestureRegistrationSet.set (s : GestureRegistrationSet) (k : GestureKind) (b : Bool) :
    GestureRegistrationSet :=
  match k with
  | .swipe => { s with swipe := b }
  | .pinch => { s with pinch := b }
  | .tap => { s with tap := b }
  | .longTap => { s with longTap := b }
  | .drag => { s with drag := b }
  | .drop => { s with drop := b }

/-- Modelled from the spec: Platform::registerGesture (Platform.h line 321),
body not in the repository snapshot; marks the kind Registered (section 4.5). -/
def registerGesture (s : GestureRegistrationSet) (k : GestureKind) : GestureRegistrationSet :=
  s.set k true

/-- Modelled from the spec: Platform::unregisterGesture (Platform.h line 328),
body not in the repository snapshot; marks the kind Unregistered (section 4.5). -/
def unregisterGesture (s : GestureRegistrationSet) (k : GestureKind) : GestureRegistrationSet :=
  s.set k false

/-- Modelled from the spec: Platform::isGestureRegistered
(Platform.h line 335), body not in the repository snapshot. -/
def isGestureRegistered (s : GestureRegistrationSet) (k : GestureKind) : Bool :=
  s.get k

/-- One call in a register/unregister call sequence. -/
inductive GestureOp
  | registerOp (k : GestureKind)
  | unregisterOp (k : GestureKind)
  deriving DecidableEq, Repr

/-- Apply one register/unregister call to the registration set. -/
def applyGestureOp (s : GestureRegistrationSet) : GestureOp → GestureRegistrationSet
  | .registerOp k => registerGesture s k
  | .unregisterOp k => unregisterGesture s k

/-- Run a sequence of register/unregister calls in order. -/
def runGestureOps (s : GestureRegistrationSet) (ops : List GestureOp) : GestureRegistrationSet :=
  ops.foldl applyGestureOp s

/-- A raw gesture signal as delivered by the OS recognizer, the argument of
the six gesture*EventInternal entry points of Platform.h. -/
inductive GestureSignal
  | swipe (x y direction : Int)
  | pinch (x y : Int) (scale : ℚ)
  | tap (x y : Int)
  | longTap (x y : Int) (duration : ℚ)
  | drag (x y : Int)
  | drop (x y : Int)
  deriving DecidableEq, Repr

/-- The gesture kind of a raw signal. -/
def GestureSignal.kind : GestureSignal → GestureKind
  | .swipe _ _ _ => .swipe
  | .pinch _ _ _ => .pinch
  | .tap _ _ => .tap
  | .longTap _ _ _ => .longTap
  | .drag _ _ => .drag
  | .drop _ _ => .drop

/-- Modelled from the spec: Platform::gestureSwipeEventInternal
(Platform.h line 384), body not in the repository snapshot.  A raw signal for
an unregistered kind is discarded before producing an InputEvent; a signal
for an unsupported kind is treated identically to unregistered (section 4.5).
`supported` is the platform-capability query isGestureSupported. -/
def gestureSwipeEventInternal (supported : GestureKind → Bool) (s : GestureRegistrationSet)
    (x y direction : Int) : Option InputEvent :=
  if isGestureRegistered s .swipe && supported .swipe then
    some (.gestureSwipe x y direction)
  else none

/-- Modelled from the spec: Platform::gesturePinchEventInternal
(Platform.h line 391), body not in the repository snapshot (section 4.5). -/
def gesturePinchEventInternal (supported : GestureKind → Bool) (s : GestureRegistrationSet)
    (x y : Int) (scale : ℚ) : Option InputEvent :=
  if isGestureRegistered s .pinch && supported .pinch then
    some (.gesturePinch x y scale)
  else none

/-- Modelled from the spec: Platform::gestureTapEventInternal
(Platform.h line 398), body not in the repository snapshot (section 4.5). -/
def gestureTapEventInternal (supported : GestureKind → Bool) (s : GestureRegistrationSet)
    (x y : Int) : Option InputEvent :=
  if isGestureRegistered s .tap && supported .tap then
    some (.gestureTap x y)
  else none

/-- Modelled from the spec: Platform::gestureLongTapEventInternal
(Platform.h line 405), body not in the repository snapshot (section 4.5). -/
def gestureLongTapEventInternal (supported : GestureKind → Bool) (s : GestureRegistrationSet)
    (x y : Int) (duration : ℚ) : Option InputEvent :=
  if isGestureRegistered s .longTap && supported .longTap then
    some (.gestureLongTap x y duration)
  else none

/-- Modelled from the spec: Platform::gestureDragEventInternal
(Platform.h line 412), body not in the repository snapshot (section 4.5). -/
def gestureDragEventInternal (supported : GestureKind → Bool) (s : GestureRegistrationSet)
    (x y : Int) : Option InputEvent :=
  if isGestureRegistered s .drag && supported .drag then
    some (.gestureDrag x y)
  else none

/-- Modelled from the spec: Platform::gestureDropEventInternal
(Platform.h line 419), body not in the repository snapshot (section 4.5). -/
def gestureDropEventInternal (supported : GestureKind → Bool) (s : GestureRegistrationSet)
    (x y : Int) : Option InputEvent :=
  if isGestureRegistered s .drop && supported .drop then
    some (.gestureDrop x y)
  else none

/-- Dispatch a raw gesture signal through the entry point of its kind,
returning the Application-visible InputEvent or none when discarded. -/
def dispatchGestureSignal (supported : GestureKind → Bool) (s : GestureRegistrationSet) :
    GestureSignal → Option InputEvent
  | .swipe x y d => gestureSwipeEventInternal supported s x y d
  | .pinch x y sc => gesturePinchEventInternal supported s x y sc
  | .tap x y => gestureTapEventInternal supported s x y
  | .longTap x y d => gestureLongTapEventInternal supported s x y d
  | .drag x y => gestureDragEventInternal supported s x y
  | .drop x y => gestureDropEventInternal supported s x y

/-- Modelled from the spec: the ClockState of section 3 behind
Platform::getAbsoluteTime/setAbsoluteTime (Platform.h lines 128, 137), bodies
not in the repository snapshot.  `origin` is the platform start instant,
`offset` the settable rebase.  Millisecond double values are embedded as
rationals; the OS monotonic instant is passed explicitly. -/
structure ClockState where
  origin : ℚ
  offset : ℚ
  deriving DecidableEq, Repr

/-- Modelled from the spec: Platform::getAbsoluteTime (Platform.h line 128),
body not in the repository snapshot; section 3 invariant
absoluteTime() = platformNow() - origin + offset. -/
def getAbsoluteTime (s : ClockState) (platformNow : ℚ) : ℚ :=
  platformNow - s.origin + s.offset

/-- Modelled from the spec: Platform::setAbsoluteTime (Platform.h line 137),
body not in the repository snapshot; rebases the settable offset so that the
next getAbsoluteTime call returns the given time (section 4.1). -/
def setAbsoluteTime (s : ClockState) (t : ℚ) (platformNow : ℚ) : ClockState :=
  { s with offset := t - (platformNow - s.origin) }

/-- Modelled from the spec: pump-owned shutdown flag behind
Platform::signalShutdown (Platform.h line 94), body not in the repository
snapshot. -/
structure PumpState where
  shutdownRequested : Bool
  deriving DecidableEq, Repr

/-- Modelled from the spec: Platform::signalShutdown (Platform.h line 94),
body not in the repository snapshot; the only cancellation primitive, safely
callable from an Application callback on the pump thread, taking effect at
the top of the next pump cycle (section 5). -/
def signalShutdown (st : PumpState) : PumpState :=
  { st with shutdownRequested := true }

/-- The OS-side input of one pump cycle: the pending raw events already
normalized, and whether the Application per-frame callback of this cycle
calls signalShutdown. -/
structure CycleInput where
  events : List InputEvent
  callbackRequestsShutdown : Bool
  deriving DecidableEq, Repr

/-- The Application-visible record of one completed pump cycle: the events
dispatched in arrival order, and whether the render hook and buffer swap
ran. -/
structure CycleRecord where
  dispatched : List InputEvent
  rendered : Bool
  swapped : Bool
  deriving DecidableEq, Repr

/-- Modelled from the spec: Platform::enterMessagePump (Platform.h line 73),
body not in the repository snapshot.  Each cycle while Running drains the
pending OS messages, dispatches each InputEvent, invokes the per-frame
update/render hook (which may call signalShutdown), then requests a buffer
swap; shutdown is checked only at the top of a cycle, and a clean stop
returns code 0 (sections 4.2, 5).  The schedule of cycle inputs is passed
explicitly; the result is the trace of completed cycles and the pump return
code. -/
def enterMessagePump : PumpState → List CycleInput → List CycleRecord × Int
  | _, [] => ([], 0)
  | st, c :: rest =>
    if st.shutdownRequested then ([], 0)
    else
      let stAfter := if c.callbackRequestsShutdown then signalShutdown st else st
      let tail := enterMessagePump stAfter rest
      ({ dispatched := c.events, rendered := true, swapped := true } :: tail.1, tail.2)

/-- A raw OS input as received by the Input Normalizer: a hardware touch
callback or a mouse callback. -/
inductive RawInput
  | hardwareTouch (evt : TouchEventKind) (x y : Int) (contactIndex : Nat)
  | mouse (evt : MouseEventKind) (x y : Int) (wheelDelta : Int)
  deriving DecidableEq, Repr

/-- Modelled from the spec: Platform::touchEventInternal (Platform.h
line 363), body not in the repository snapshot; builds the canonical Touch
InputEvent carrying the actuallyMouse emulation flag (section 4.3). -/
def touchEventInternal (evt : TouchEventKind) (x y : Int) (contactIndex : Nat)
    (actuallyMouse : Bool) : InputEvent :=
  .touch evt x y contactIndex actuallyMouse

/-- The touch event kind a mouse event maps to under mouse-as-touch
emulation, none when the mouse event has no touch counterpart. -/
def mouseToTouchKind : MouseEventKind → Option TouchEventKind
  | .pressLeftButton => some .press
  | .releaseLeftButton => some .release
  | .move => some .move
  | _ => none

/-- Modelled from the spec: the Input Normalizer path through
Platform::mouseEventInternal and touchEventInternal (Platform.h lines 363,
377), bodies not in the repository snapshot.  On a platform lacking real
touch hardware, mouse events with a touch counterpart are synthesized into
Touch events flagged actuallyMouse = true; hardware touch events carry the
flag false (section 4.3). -/
def normalizeRawInput (hasRealTouch : Bool) : RawInput → Option InputEvent
  | .hardwareTouch evt x y ci => some (touchEventInternal evt x y ci false)
  | .mouse evt x y wheelDelta =>
    if hasRealTouch then some (.mouse evt x y wheelDelta)
    else
      match mouseToTouchKind evt with
      | some tk => some (touchEventInternal tk x y 0 true)
      | none => some (.mouse evt x y wheelDelta)

/-- Modelled from the spec: the GamepadDescriptor of section 3, immutable
once created at connection time. -/
structure GamepadDescriptor where
  handle : Nat
  buttonCount : Nat
  joystickCount : Nat
  triggerCount : Nat
  name : String
  deriving DecidableEq, Repr

/-- Modelled from the spec: the GamepadLiveState of section 3, the per-handle
mutable snapshot of button-pressed set, joystick axis pairs and trigger
values. -/
structure GamepadLiveState where
  buttons : List Bool
  joysticks : List (ℚ × ℚ)
  triggers : List ℚ
  deriving DecidableEq, Repr

/-- The zeroed live state created at connection time. -/
def GamepadLiveState.zeroed (buttonCount joystickCount triggerCount : Nat) : GamepadLiveState :=
  ⟨List.replicate buttonCount false,
   List.replicate joystickCount (0, 0),
   List.replicate triggerCount 0⟩

/-- A registry entry: the immutable descriptor with its live state. -/
structure GamepadEntry where
  descriptor : GamepadDescriptor
  state : GamepadLiveState
  deriving DecidableEq, Repr

/-- Modelled from the spec: the Gamepad Registry of section 4.4, keyed by the
opaque GamepadHandle (embedded as Nat). -/
abbrev GamepadRegistry := List (Nat × GamepadEntry)

/-- Look up the entry of a handle in the registry. -/
def lookupGamepad : GamepadRegistry → Nat → Option GamepadEntry
  | [], _ => none
  | p :: rest, h => if p.1 == h then some p.2 else lookupGamepad rest h

/-- Apply a function to the entry of a handle, a no-op when the handle is not
present. -/
def updateGamepad : GamepadRegistry → Nat → (GamepadEntry → GamepadEntry) → GamepadRegistry
  | [], _, _ => []
  | p :: rest, h, f =>
    if p.1 == h then (p.1, f p.2) :: rest else p :: updateGamepad rest h f

/-- Modelled from the spec: Platform::gamepadEventConnectedInternal
(Platform.h line 433), body not in the repository snapshot.  Creates a new
GamepadDescriptor plus zeroed LiveState; a duplicate connect is ignored
(logged), leaving the existing state uncorrupted (section 4.4). -/
def gamepadEventConnectedInternal (r : GamepadRegistry) (h buttonCount joystickCount triggerCount : Nat)
    (name : String) : GamepadRegistry :=
  match lookupGamepad r h with
  | some _ => r
  | none =>
    (h, ⟨⟨h, buttonCount, joystickCount, triggerCount, name⟩,
         GamepadLiveState.zeroed buttonCount joystickCount triggerCount⟩) :: r

/-- Modelled from the spec: Platform::gamepadEventDisconnectedInternal
(Platform.h line 440), body not in the repository snapshot.  Destroys the
descriptor and state of the handle (section 4.4). -/
def gamepadEventDisconnectedInternal : GamepadRegistry → Nat → GamepadRegistry
  | [], _ => []
  | p :: rest, h =>
    if p.1 == h then gamepadEventDisconnectedInternal rest h
    else p :: gamepadEventDisconnectedInternal rest h

/-- Modelled from the spec: Platform::gamepadButtonPressedEventInternal
(Platform.h line 447), body not in the repository snapshot; mutates the
button-pressed set of the named handle, a no-op on an absent handle
(section 4.4).  The ButtonMapping is embedded as a button index. -/
def gamepadButtonPressedEventInternal (r : GamepadRegistry) (h button : Nat) : GamepadRegistry :=
  updateGamepad r h fun e =>
    { e with state := { e.state with buttons := e.state.buttons.set button true } }

/-- Modelled from the spec: Platform::gamepadButtonReleasedEventInternal
(Platform.h line 454), body not in the repository snapshot (section 4.4). -/
def gamepadButtonReleasedEventInternal (r : GamepadRegistry) (h button : Nat) : GamepadRegistry :=
  updateGamepad r h fun e =>
    { e with state := { e.state with buttons := e.state.buttons.set button false } }

/-- Modelled from the spec: Platform::gamepadTriggerChangedEventInternal
(Platform.h line 461), body not in the repository snapshot; an index outside
the descriptor's trigger range is ignored defensively, and an absent handle
is a no-op (section 4.4). -/
def gamepadTriggerChangedEventInternal (r : GamepadRegistry) (h index : Nat) (value : ℚ) :
    GamepadRegistry :=
  updateGamepad r h fun e =>
    if index < e.descriptor.triggerCount then
      { e with state := { e.state with triggers := e.state.triggers.set index value } }
    else e

/-- Modelled from the spec: Platform::gamepadJoystickChangedEventInternal
(Platform.h line 468), body not in the repository snapshot; an index outside
the descriptor's joystick range is ignored defensively, and an absent handle
is a no-op (section 4.4). -/
def gamepadJoystickChangedEventInternal (r : GamepadRegistry) (h index : Nat) (x y : ℚ) :
    GamepadRegistry :=
  updateGamepad r h fun e =>
    if index < e.descriptor.joystickCount then
      { e with state := { e.state with joysticks := e.state.joysticks.set index (x, y) } }
    else e

/-- Modelled from the spec: Platform::pollGamepadState (Platform.h line 479),
body not in the repository snapshot; overwrites the LiveState of the handle
atomically with one full OS read, a no-op on a since-disconnected handle
(section 4.4). -/
def pollGamepadState (r : GamepadRegistry) (h : Nat) (osState : GamepadLiveState) :
    GamepadRegistry :=
  updateGamepad r h fun e => { e with state := osState }

/-- Modelled from the spec: per-platform static sensor capability facts
behind Platform::hasAccelerometer (Platform.h line 259), body not in the
repository snapshot (section 2, Device Capability Registry). -/
structure SensorSupport where
  accelerometerPresent : Bool
  gyroscopePresent : Bool
  deriving DecidableEq, Repr

/-- Modelled from the spec: Platform::hasAccelerometer (Platform.h line 259),
body not in the repository snapshot. -/
def hasAccelerometer (sup : SensorSupport) : Bool :=
  sup.accelerometerPresent

/-- The raw readings the OS sensor layer would supply, embedded as
rationals. -/
structure RawSensorData where
  pitch : ℚ
  roll : ℚ
  accelX : ℚ
  accelY : ℚ
  accelZ : ℚ
  gyroX : ℚ
  gyroY : ℚ
  gyroZ : ℚ
  deriving DecidableEq, Repr

/-- Modelled from the spec: Platform::getAccelerometerValues (Platform.h
line 271), body not in the repository snapshot; pitch and roll are zero when
hasAccelerometer() returns false (Platform.h doc lines 268-269). -/
def getAccelerometerValues (sup : SensorSupport) (raw : RawSensorData) : ℚ × ℚ :=
  if hasAccelerometer sup then (raw.pitch, raw.roll) else (0, 0)

/-- Modelled from the spec: Platform::getSensorValues (Platform.h line 285),
body not in the repository snapshot; returns zeros on platforms with no
corresponding support (Platform.h doc line 275).  First component the three
accelerometer outputs, second the three gyroscope outputs. -/
def getSensorValues (sup : SensorSupport) (raw : RawSensorData) : (ℚ × ℚ × ℚ) × (ℚ × ℚ × ℚ) :=
  ((if sup.accelerometerPresent then (raw.accelX, raw.accelY, raw.accelZ) else (0, 0, 0)),
   (if sup.gyroscopePresent then (raw.gyroX, raw.gyroY, raw.gyroZ) else (0, 0, 0)))

/-- File dialog mode (Platform.h line 484). -/
inductive DialogMode
  | openDialog
  | saveDialog
  deriving DecidableEq, Repr

/-- The user-side outcome of a native file dialog. -/
inductive FileDialogOutcome
  | selected (path : String)
  | cancelled
  deriving DecidableEq, Repr

/-- A raised/thrown platform failure; the error channel the facade never
uses for user-visible failures (section 7). -/
inductive PlatformFault
  | fault (message : String)
  deriving DecidableEq, Repr

/-- Modelled from the spec: Platform::displayFileDialog (Platform.h
line 493), body not in the repository snapshot; returns the opened or saved
file, or an empty string if canceled — cancellation is a return value, never
a thrown failure (sections 6, 7). -/
def displayFileDialog (mode : DialogMode) (title filterDescription filterExtensions initialDirectory : String)
    (outcome : FileDialogOutcome) : Except PlatformFault String :=
  match outcome with
  | .selected path => .ok path
  | .cancelled => .ok ""

/-- Modelled from the spec: Platform::launchURL (Platform.h line 344), body
not in the repository snapshot; reports whether the OS accepted the launch
request as a success boolean, never as a thrown failure (sections 6, 7). -/
def launchURL (url : String) (osAcceptedLaunch : Bool) : Except PlatformFault Bool :=
  Except.ok osAcceptedLaunch

/-! Helper lemmas shared by the claim theorems. -/

/-- A dispatched gesture signal yields an event exactly when its kind is both
registered and supported. -/
theorem dispatchGestureSignal_isSome (supported : GestureKind → Bool)
    (s : GestureRegistrationSet) (sig : GestureSignal) :
    (dispatchGestureSignal supported s sig).isSome =
      (isGestureRegistered s sig.kind && supported sig.kind) := by
  cases sig <;>
    simp only [dispatchGestureSignal, gestureSwipeEventInternal, gesturePinchEventInternal,
      gestureTapEventInternal, gestureLongTapEventInternal, gestureDragEventInternal,
      gestureDropEventInternal, GestureSignal.kind] <;>
    split <;> simp_all

/-- A pump whose shutdown flag is set stops at the top of the cycle with a
clean return code and no further dispatch. -/
theorem enterMessagePump_of_shutdown (l : List CycleInput) (st : PumpState)
    (h : st.shutdownRequested = true) : enterMessagePump st l = ([], 0) := by
  cases l with
  | nil => rfl
  | cons c rest => simp [enterMessagePump, h]

/-- Unfolding one cycle of a running pump whose shutdown flag is clear. -/
theorem enterMessagePump_cons (st : PumpState) (hst : st.shutdownRequested = false)
    (c : CycleInput) (rest : List CycleInput) :
    enterMessagePump st (c :: rest) =
      (({ dispatched := c.events, rendered := true, swapped := true } : CycleRecord) ::
        (enterMessagePump (if c.callbackRequestsShutdown then signalShutdown st else st) rest).1,
       (enterMessagePump (if c.callbackRequestsShutdown then signalShutdown st else st) rest).2) := by
  simp [enterMessagePump, hst]

/-- Updating an absent handle leaves the registry unchanged. -/
theorem updateGamepad_absent (r : GamepadRegistry) (h : Nat) (f : GamepadEntry → GamepadEntry)
    (hl : lookupGamepad r h = none) : updateGamepad r h f = r := by
  induction r with
  | nil => rfl
  | cons p rest ih =>
    by_cases hp : p.1 == h
    · simp [lookupGamepad, hp] at hl
    · simp [lookupGamepad, hp] at hl
      simp [updateGamepad, hp, ih hl]

/-- After removing a handle, looking it up yields nothing. -/
theorem lookupGamepad_disconnect_self (r : GamepadRegistry) (h : Nat) :
    lookupGamepad (gamepadEventDisconnectedInternal r h) h = none := by
  induction r with
  | nil => rfl
  | cons p rest ih =>
    by_cases hp : p.1 == h
    · simp [gamepadEventDisconnectedInternal, hp, ih]
    · simp [gamepadEventDisconnectedInternal, lookupGamepad, hp, ih]

/-- Updating a present handle with a function that fixes its entry leaves the
registry unchanged. -/
theorem updateGamepad_frozen (r : GamepadRegistry) (h : Nat) (f : GamepadEntry → GamepadEntry)
    (e : GamepadEntry) (hl : lookupGamepad r h = some e) (hf : f e = e) :
    updateGamepad r h f = r := by
  induction r with
  | nil => simp [lookupGamepad] at hl
  | cons p rest ih =>
    by_cases hp : p.1 == h
    · have hpe : p.2 = e := by simpa [lookupGamepad, hp] using hl
      have hfp : f p.2 = p.2 := by rw [hpe, hf]
      simp [updateGamepad, hp, hfp]
    · have hl2 : lookupGamepad rest h = some e := by simpa [lookupGamepad, hp] using hl
      simp [updateGamepad, hp, ih hl2]

/-! The claim theorems. -/

/-- C1: for every sequence of registerGesture/unregisterGesture calls and
every raw gesture signal, an Application-visible gesture InputEvent is
produced iff the signal's kind is supported and registered at the moment the
signal arrives; a signal for an unregistered or unsupported kind is discarded
with zero Application-visible effect and no fault. -/
theorem gesture_event_iff_registered (supported : GestureKind → Bool)
    (ops : List GestureOp) (sig : GestureSignal) :
    (supported sig.kind = true →
      ((dispatchGestureSignal supported (runGestureOps GestureRegistrationSet.initial ops) sig).isSome = true ↔
        isGestureRegistered (runGestureOps GestureRegistrationSet.initial ops) sig.kind = true)) ∧
    (∀ s : GestureRegistrationSet,
      isGestureRegistered s sig.kind = false ∨ supported sig.kind = false →
        dispatchGestureSignal supported s sig = none) := by
  constructor
  · intro hsup
    rw [dispatchGestureSignal_isSome]
    simp [hsup]
  · intro s hs
    cases hopt : dispatchGestureSignal supported s sig with
    | none => rfl
    | some e =>
      have hsome := dispatchGestureSignal_isSome supported s sig
      rw [hopt] at hsome
      rcases hs with h1 | h1 <;> rw [h1] at hsome <;> simp at hsome

/-- Witness for C1: with every kind supported and only Pinch registered, a
raw pinch signal yields an event and a raw swipe signal is discarded. -/
theorem gesture_event_iff_registered_witness :
    (dispatchGestureSignal (fun _ => true)
      (runGestureOps GestureRegistrationSet.initial [GestureOp.registerOp GestureKind.pinch])
      (GestureSignal.pinch 1 2 (3 : ℚ))).isSome = true ∧
    dispatchGestureSignal (fun _ => true)
      (runGestureOps GestureRegistrationSet.initial [GestureOp.registerOp GestureKind.pinch])
      (GestureSignal.swipe 1 2 3) = none := by
  have hp := gesture_event_iff_registered (fun _ => true)
    [GestureOp.registerOp GestureKind.pinch] (GestureSignal.pinch 1 2 (3 : ℚ))
  have hs := gesture_event_iff_registered (fun _ => true)
    [GestureOp.registerOp GestureKind.pinch] (GestureSignal.swipe 1 2 3)
  exact ⟨(hp.1 rfl).mpr (by decide),
         hs.2 (runGestureOps GestureRegistrationSet.initial [GestureOp.registerOp GestureKind.pinch])
           (Or.inl (by decide))⟩

/-- C8: registerGesture and unregisterGesture are idempotent for every
gesture kind, and the initial state of every gesture kind is Unregistered. -/
theorem gesture_registration_idempotent_and_initial (s : GestureRegistrationSet) (k : GestureKind) :
    registerGesture (registerGesture s k) k = registerGesture s k ∧
    unregisterGesture (unregisterGesture s k) k = unregisterGesture s k ∧
    ∀ k2 : GestureKind, isGestureRegistered GestureRegistrationSet.initial k2 = false := by
  refine ⟨?_, ?_, ?_⟩
  · cases k <;> rfl
  · cases k <;> rfl
  · intro k2
    cases k2 <;> rfl

/-- C3: setAbsoluteTime(t) followed immediately by getAbsoluteTime() returns
t, and subsequent getAbsoluteTime calls are monotonically non-decreasing with
the OS monotonic instant until the next setAbsoluteTime call. -/
theorem setAbsoluteTime_get_then_monotone (s : ClockState) (t p p1 p2 : ℚ) (hmono : p1 ≤ p2) :
    getAbsoluteTime (setAbsoluteTime s t p) p = t ∧
    getAbsoluteTime (setAbsoluteTime s t p) p1 ≤ getAbsoluteTime (setAbsoluteTime s t p) p2 := by
  constructor
  · unfold getAbsoluteTime setAbsoluteTime
    ring
  · unfold getAbsoluteTime setAbsoluteTime
    simp only
    linarith

/-- Witness for C3: setting time 100 at OS instant 5 makes the immediate read
return 100, and reads at instants 6 and 8 are non-decreasing. -/
theorem setAbsoluteTime_get_then_monotone_witness :
    getAbsoluteTime (setAbsoluteTime ⟨0, 0⟩ 100 5) 5 = 100 ∧
    getAbsoluteTime (setAbsoluteTime ⟨0, 0⟩ 100 5) 6 ≤ getAbsoluteTime (setAbsoluteTime ⟨0, 0⟩ 100 5) 8 :=
  setAbsoluteTime_get_then_monotone ⟨0, 0⟩ 100 5 6 8 (by norm_num)

/-- C2: when signalShutdown is called from inside the Application per-frame
callback of a pump cycle, that cycle still completes its render and buffer
swap, no further cycle runs (hence no further event dispatch), the shutdown
takes effect at the top of the next pump cycle, and enterMessagePump returns
the clean-stop code 0. -/
theorem signalShutdown_clean_stop (pre : List CycleInput) (c : CycleInput)
    (post : List CycleInput)
    (hpre : ∀ x ∈ pre, x.callbackRequestsShutdown = false)
    (hc : c.callbackRequestsShutdown = true) :
    enterMessagePump ⟨false⟩ (pre ++ c :: post) =
      (pre.map (fun x => { dispatched := x.events, rendered := true, swapped := true }) ++
        [{ dispatched := c.events, rendered := true, swapped := true }], 0) := by
  induction pre with
  | nil =>
    rw [List.nil_append, enterMessagePump_cons ⟨false⟩ rfl c post, hc]
    simp only [if_true, List.map_nil, List.nil_append]
    rw [enterMessagePump_of_shutdown post (signalShutdown ⟨false⟩) rfl]
  | cons x rest ih =>
    have hx : x.callbackRequestsShutdown = false := hpre x (List.mem_cons_self x rest)
    have ih2 := ih fun y hy => hpre y (List.mem_cons_of_mem x hy)
    rw [List.cons_append, enterMessagePump_cons ⟨false⟩ rfl x (rest ++ c :: post), hx,
      if_neg Bool.false_ne_true, ih2]
    simp

/-- Witness for C2: a quiet cycle, then a cycle whose callback requests
shutdown, then a scheduled cycle that never runs; the trace stops after the
shutdown cycle with its render and swap completed, and the return code is
0. -/
theorem signalShutdown_clean_stop_witness :
    enterMessagePump ⟨false⟩
      [⟨[], false⟩, ⟨[InputEvent.gestureTap 1 2], true⟩, ⟨[InputEvent.gestureTap 3 4], false⟩] =
      ([⟨[], true, true⟩, ⟨[InputEvent.gestureTap 1 2], true, true⟩], 0) := by
  have h := signalShutdown_clean_stop [⟨[], false⟩] ⟨[InputEvent.gestureTap 1 2], true⟩
    [⟨[InputEvent.gestureTap 3 4], false⟩]
    (by intro x hx; simp only [List.mem_singleton] at hx; subst hx; rfl) rfl
  simpa using h

/-- C4: after connect(h) then disconnect(h), any gamepad event or poll
referencing h is a no-op: the handle is gone from the registry, no fault
occurs, the registry is left unchanged, and the destroyed descriptor and
live state are not resurrected. -/
theorem gamepad_disconnect_then_reference_noop (r : GamepadRegistry)
    (h bc jc tc : Nat) (name : String) (r2 : GamepadRegistry)
    (hr2 : r2 = gamepadEventDisconnectedInternal
      (gamepadEventConnectedInternal r h bc jc tc name) h)
    (button index : Nat) (value jx jy : ℚ) (osState : GamepadLiveState) :
    lookupGamepad r2 h = none ∧
    gamepadButtonPressedEventInternal r2 h button = r2 ∧
    gamepadButtonReleasedEventInternal r2 h button = r2 ∧
    gamepadTriggerChangedEventInternal r2 h index value = r2 ∧
    gamepadJoystickChangedEventInternal r2 h index jx jy = r2 ∧
    pollGamepadState r2 h osState = r2 := by
  subst hr2
  have hnone := lookupGamepad_disconnect_self
    (gamepadEventConnectedInternal r h bc jc tc name) h
  exact ⟨hnone,
    updateGamepad_absent _ h _ hnone,
    updateGamepad_absent _ h _ hnone,
    updateGamepad_absent _ h _ hnone,
    updateGamepad_absent _ h _ hnone,
    updateGamepad_absent _ h _ hnone⟩

/-- Witness for C4: connect handle 7 on an empty registry, disconnect it, and
observe every event and poll on handle 7 leave the registry unchanged. -/
theorem gamepad_disconnect_then_reference_noop_witness :
    lookupGamepad (gamepadEventDisconnectedInternal
      (gamepadEventConnectedInternal [] 7 2 1 1 "Pad1") 7) 7 = none ∧
    gamepadButtonPressedEventInternal (gamepadEventDisconnectedInternal
      (gamepadEventConnectedInternal [] 7 2 1 1 "Pad1") 7) 7 0 =
      gamepadEventDisconnectedInternal (gamepadEventConnectedInternal [] 7 2 1 1 "Pad1") 7 ∧
    gamepadButtonReleasedEventInternal (gamepadEventDisconnectedInternal
      (gamepadEventConnectedInternal [] 7 2 1 1 "Pad1") 7) 7 0 =
      gamepadEventDisconnectedInternal (gamepadEventConnectedInternal [] 7 2 1 1 "Pad1") 7 ∧
    gamepadTriggerChangedEventInternal (gamepadEventDisconnectedInternal
      (gamepadEventConnectedInternal [] 7 2 1 1 "Pad1") 7) 7 0 (1 : ℚ) =
      gamepadEventDisconnectedInternal (gamepadEventConnectedInternal [] 7 2 1 1 "Pad1") 7 ∧
    gamepadJoystickChangedEventInternal (gamepadEventDisconnectedInternal
      (gamepadEventConnectedInternal [] 7 2 1 1 "Pad1") 7) 7 0 (1 : ℚ) (2 : ℚ) =
      gamepadEventDisconnectedInternal (gamepadEventConnectedInternal [] 7 2 1 1 "Pad1") 7 ∧
    pollGamepadState (gamepadEventDisconnectedInternal
      (gamepadEventConnectedInternal [] 7 2 1 1 "Pad1") 7) 7 ⟨[true], [], []⟩ =
      gamepadEventDisconnectedInternal (gamepadEventConnectedInternal [] 7 2 1 1 "Pad1") 7 :=
  gamepad_disconnect_then_reference_noop [] 7 2 1 1 "Pad1" _ rfl 0 0 1 1 2 ⟨[true], [], []⟩

/-- C5: a trigger-changed or joystick-changed event whose index lies outside
the descriptor's trigger respectively joystick range is ignored without
crashing: the registry before and after the out-of-range update call is
identical. -/
theorem gamepad_out_of_range_index_ignored (r : GamepadRegistry) (h index : Nat)
    (e : GamepadEntry) (hl : lookupGamepad r h = some e) (value jx jy : ℚ) :
    (e.descriptor.triggerCount ≤ index →
      gamepadTriggerChangedEventInternal r h index value = r) ∧
    (e.descriptor.joystickCount ≤ index →
      gamepadJoystickChangedEventInternal r h index jx jy = r) := by
  constructor
  · intro hidx
    exact updateGamepad_frozen r h _ e hl (by simp [Nat.not_lt.mpr hidx])
  · intro hidx
    exact updateGamepad_frozen r h _ e hl (by simp [Nat.not_lt.mpr hidx])

/-- Witness for C5: a connected gamepad with 1 trigger and 1 joystick ignores
trigger and joystick updates at index 5. -/
theorem gamepad_out_of_range_index_ignored_witness :
    gamepadTriggerChangedEventInternal (gamepadEventConnectedInternal [] 1 2 1 1 "Pad1") 1 5 (9 : ℚ) =
      gamepadEventConnectedInternal [] 1 2 1 1 "Pad1" ∧
    gamepadJoystickChangedEventInternal (gamepadEventConnectedInternal [] 1 2 1 1 "Pad1") 1 5 (3 : ℚ) (4 : ℚ) =
      gamepadEventConnectedInternal [] 1 2 1 1 "Pad1" := by
  have h := gamepad_out_of_range_index_ignored (gamepadEventConnectedInternal [] 1 2 1 1 "Pad1")
    1 5 ⟨⟨1, 2, 1, 1, "Pad1"⟩, GamepadLiveState.zeroed 2 1 1⟩ rfl 9 3 4
  exact ⟨h.1 (by decide), h.2 (by decide)⟩

/-- C6: a connect event for an absent handle creates a descriptor with
exactly the given counts and name plus a zeroed live state; a connect for an
already-present handle is ignored, leaving the registry (and hence the
existing descriptor and live state) unmodified. -/
theorem gamepad_connect_semantics (r : GamepadRegistry) (h bc jc tc : Nat) (name : String) :
    (lookupGamepad r h = none →
      lookupGamepad (gamepadEventConnectedInternal r h bc jc tc name) h =
        some ⟨⟨h, bc, jc, tc, name⟩, GamepadLiveState.zeroed bc jc tc⟩) ∧
    (∀ e, lookupGamepad r h = some e →
      gamepadEventConnectedInternal r h bc jc tc name = r) := by
  constructor
  · intro hnone
    simp [gamepadEventConnectedInternal, hnone, lookupGamepad]
  · intro e he
    simp [gamepadEventConnectedInternal, he]

/-- Witness for C6: connecting handle 3 to an empty registry yields exactly
the given descriptor and zeroed state, and a duplicate connect with different
counts is ignored. -/
theorem gamepad_connect_semantics_witness :
    lookupGamepad (gamepadEventConnectedInternal [] 3 2 1 0 "Pad1") 3 =
      some ⟨⟨3, 2, 1, 0, "Pad1"⟩, GamepadLiveState.zeroed 2 1 0⟩ ∧
    gamepadEventConnectedInternal (gamepadEventConnectedInternal [] 3 2 1 0 "Pad1") 3 9 9 9 "Other" =
      gamepadEventConnectedInternal [] 3 2 1 0 "Pad1" := by
  refine ⟨(gamepad_connect_semantics [] 3 2 1 0 "Pad1").1 rfl, ?_⟩
  exact (gamepad_connect_semantics (gamepadEventConnectedInternal [] 3 2 1 0 "Pad1") 3 9 9 9 "Other").2
    ⟨⟨3, 2, 1, 0, "Pad1"⟩, GamepadLiveState.zeroed 2 1 0⟩ rfl

/-- C7: every Touch InputEvent synthesized from a mouse event carries the
actuallyMouse emulation flag set to true, and every Touch InputEvent
originating from real touch hardware carries it set to false. -/
theorem touch_flag_tracks_source (hasRealTouch : Bool) :
    (∀ evt x y ci, normalizeRawInput hasRealTouch (RawInput.hardwareTouch evt x y ci) =
      some (InputEvent.touch evt x y ci false)) ∧
    (∀ m x y wd tk, hasRealTouch = false → mouseToTouchKind m = some tk →
      normalizeRawInput hasRealTouch (RawInput.mouse m x y wd) =
        some (InputEvent.touch tk x y 0 true)) ∧
    (∀ m x y wd e a b ci am, normalizeRawInput hasRealTouch (RawInput.mouse m x y wd) =
      some (InputEvent.touch e a b ci am) → am = true) := by
  refine ⟨?_, ?_, ?_⟩
  · intro evt x y ci
    simp [normalizeRawInput, touchEventInternal]
  · intro m x y wd tk h0 hmt
    subst h0
    simp [normalizeRawInput, hmt, touchEventInternal]
  · intro m x y wd e a b ci am hnorm
    cases hasRealTouch with
    | true => simp [normalizeRawInput] at hnorm
    | false =>
      simp only [normalizeRawInput, Bool.false_eq_true, if_false] at hnorm
      cases hmt : mouseToTouchKind m with
      | none => rw [hmt] at hnorm; simp at hnorm
      | some tk =>
        rw [hmt] at hnorm
        simp only [touchEventInternal, Option.some.injEq, InputEvent.touch.injEq] at hnorm
        exact hnorm.2.2.2.2.symm

/-- Witness for C7: on a platform without real touch hardware, a hardware
touch callback yields an unflagged Touch event, a left-button mouse press
yields a Touch event flagged actuallyMouse, and the flag of any Touch event
produced from a mouse callback is true. -/
theorem touch_flag_tracks_source_witness :
    normalizeRawInput false (RawInput.hardwareTouch TouchEventKind.press 1 2 0) =
      some (InputEvent.touch TouchEventKind.press 1 2 0 false) ∧
    normalizeRawInput false (RawInput.mouse MouseEventKind.pressLeftButton 3 4 0) =
      some (InputEvent.touch TouchEventKind.press 3 4 0 true) ∧
    true = true := by
  have h := touch_flag_tracks_source false
  exact ⟨h.1 TouchEventKind.press 1 2 0,
         h.2.1 MouseEventKind.pressLeftButton 3 4 0 TouchEventKind.press rfl rfl,
         h.2.2 MouseEventKind.pressLeftButton 3 4 0 TouchEventKind.press 3 4 0 true rfl⟩

/-- C9: displayFileDialog and launchURL report their user-visible failures
only through their return values — the empty string for file-dialog
cancellation, the selected path otherwise, and the OS acceptance boolean for
launchURL — and never by raising a failure on the error channel. -/
theorem dialog_and_url_report_via_return (mode : DialogMode)
    (title fd fe idir : String) (outcome : FileDialogOutcome)
    (url : String) (osAccepted : Bool) :
    (∀ f, displayFileDialog mode title fd fe idir outcome ≠ Except.error f) ∧
    (outcome = FileDialogOutcome.cancelled →
      displayFileDialog mode title fd fe idir outcome = Except.ok "") ∧
    (∀ p, outcome = FileDialogOutcome.selected p →
      displayFileDialog mode title fd fe idir outcome = Except.ok p) ∧
    (∀ f, launchURL url osAccepted ≠ Except.error f) ∧
    launchURL url osAccepted = Except.ok osAccepted := by
  refine ⟨?_, ?_, ?_, ?_, rfl⟩
  · intro f hcontra
    cases outcome <;> simp [displayFileDialog] at hcontra
  · intro hco
    subst hco
    rfl
  · intro p hp
    subst hp
    rfl
  · intro f hcontra
    simp [launchURL] at hcontra

/-- Witness for C9: a cancelled dialog returns the empty string, a selected
file returns its path, and a rejected URL launch returns false — all through
the ok channel. -/
theorem dialog_and_url_report_via_return_witness :
    displayFileDialog DialogMode.openDialog "Select File" "Image Files" "png;jpg" "res"
      FileDialogOutcome.cancelled = Except.ok "" ∧
    displayFileDialog DialogMode.saveDialog "Save File" "Image Files" "png" "res"
      (FileDialogOutcome.selected "a.png") = Except.ok "a.png" ∧
    launchURL "gameplay" false = Except.ok false := by
  refine ⟨(dialog_and_url_report_via_return DialogMode.openDialog "Select File" "Image Files"
    "png;jpg" "res" FileDialogOutcome.cancelled "gameplay" false).2.1 rfl, ?_, ?_⟩
  · exact (dialog_and_url_report_via_return DialogMode.saveDialog "Save File" "Image Files"
      "png" "res" (FileDialogOutcome.selected "a.png") "gameplay" false).2.2.1 "a.png" rfl
  · exact (dialog_and_url_report_via_return DialogMode.openDialog "t" "d" "e" "i"
      FileDialogOutcome.cancelled "gameplay" false).2.2.2.2

/-- C10: when hasAccelerometer() returns false, getAccelerometerValues
returns zero pitch and roll and the accelerometer triple of getSensorValues
is zero; without gyroscope support the gyroscope triple of getSensorValues is
zero as well, so a platform without either sensor reads all six values as
zero. -/
theorem sensors_zero_without_support (sup : SensorSupport) (raw : RawSensorData) :
    (hasAccelerometer sup = false →
      getAccelerometerValues sup raw = (0, 0) ∧ (getSensorValues sup raw).1 = (0, 0, 0)) ∧
    (sup.gyroscopePresent = false → (getSensorValues sup raw).2 = (0, 0, 0)) := by
  constructor
  · intro h
    have h2 : sup.accelerometerPresent = false := h
    constructor
    · simp [getAccelerometerValues, hasAccelerometer, h2]
    · simp [getSensorValues, h2]
  · intro h
    simp [getSensorValues, h]

/-- Witness for C10: a platform with neither sensor reads zero pitch and
roll and all six raw sensor values as zero, whatever the OS layer holds. -/
theorem sensors_zero_without_support_witness :
    (getAccelerometerValues ⟨false, false⟩ ⟨1, 2, 3, 4, 5, 6, 7, 8⟩ = (0, 0) ∧
      (getSensorValues ⟨false, false⟩ ⟨1, 2, 3, 4, 5, 6, 7, 8⟩).1 = (0, 0, 0)) ∧
    (getSensorValues ⟨false, false⟩ ⟨1, 2, 3, 4, 5, 6, 7, 8⟩).2 = (0, 0, 0) := by
  have h := sensors_zero_without_support ⟨false, false⟩ ⟨1, 2, 3, 4, 5, 6, 7, 8⟩
  exact ⟨h.1 rfl, h.2 rfl⟩

end GamePlay
